import Mathlib

/-!
# Verification of the order-status transition helpers and post-payment validators

Shallow embedding of the two backend helper modules of the repository
(order-status transition manager and post-payment validator) and proofs of
the specified properties.

Modelling conventions:
* JavaScript numbers are modelled as exact rationals (`ℚ`); the JS `NaN`
  value (e.g. the result of `parseFloat` on an unparseable string) is
  modelled as `none` in the type `JNum := Option ℚ`.  All JS comparisons
  involving `NaN` are `false`, and arithmetic with `NaN` yields `NaN`,
  which `jadd`/`jsub`/`jlt`/`jgt` reproduce.
* JS number-to-string interpolation inside human-readable messages is
  modelled by `jshow`; the exact digit rendering of a number is abstracted
  (the claims under verification identify messages by their fixed text,
  not by the rendered digits).
* Database rows are records; a table is a list of rows.  A SQL `SELECT`
  is a pure lookup over the snapshot; `UPDATE`/`INSERT` produce a new
  snapshot.  A `pool.query` call in the source can throw: this is
  modelled by a `StoreFaults` record injecting, per call site, the error
  message the call would throw with (`none` = the call succeeds).
* JS object fields that may be absent (`undefined`) or `null` are
  modelled as `Option`; absence and `null` collapse to `none`.
-/

namespace OrderPipeline

/-- JS number: `some q` is an ordinary (exact) number, `none` is `NaN`. -/
abbrev JNum : Type := Option ℚ

/-- JS addition: `NaN` is absorbing. -/
def jadd : JNum → JNum → JNum
  | some a, some b => some (a + b)
  | _, _ => none

/-- JS subtraction: `NaN` is absorbing. -/
def jsub : JNum → JNum → JNum
  | some a, some b => some (a - b)
  | _, _ => none

/-- JS `Math.abs` of a difference, `NaN` absorbing. -/
def jabs : JNum → JNum
  | some a => some |a|
  | none => none

/-- JS `<`: any comparison involving `NaN` is false. -/
def jlt : JNum → JNum → Bool
  | some a, some b => decide (a < b)
  | _, _ => false

/-- JS `>`: any comparison involving `NaN` is false. -/
def jgt : JNum → JNum → Bool
  | some a, some b => decide (a > b)
  | _, _ => false

/-- Rendering of a JS number into a message string (digit rendering of
ordinary numbers abstracted by `toString` on `ℚ`). -/
def jshow : JNum → String
  | some q => toString q
  | none => "NaN"

/-! ## Status Transition Manager (`orderStatusHelpers`) -/

/-- `VALID_TRANSITIONS`: maps current status -> allowed next statuses;
`none` for a key the object does not have (`hasOwnProperty` fails). -/
def VALID_TRANSITIONS : String → Option (List String) := fun s =>
  if s = "pending" then some ["payment_pending", "cancelled"]
  else if s = "payment_pending" then some ["payment_completed", "cancelled"]
  else if s = "payment_completed" then some ["processing", "refunded"]
  else if s = "processing" then some ["shipped", "cancelled"]
  else if s = "shipped" then some ["delivered", "cancelled"]
  else if s = "delivered" then some ["refunded"]
  else if s = "cancelled" then some []
  else if s = "refunded" then some []
  else none

/-- Result record of `validateTransition`. -/
structure ValidationOutcome where
  valid : Bool
  reason : String
deriving Repr, DecidableEq

/-- JS `allowedTransitions.join(", ") || "none"`: joining yields the empty
string (falsy) exactly on degenerate lists, in which case `"none"` is used. -/
def joinAllowed (l : List String) : String :=
  let j := String.intercalate ", " l
  if j = "" then "none" else j

/-- `validateTransition(currentStatus, newStatus)` from the source:
unknown current status, then membership of the target in the allowed set. -/
def validateTransition (currentStatus newStatus : String) : ValidationOutcome :=
  match VALID_TRANSITIONS currentStatus with
  | none => ⟨false, "Invalid current status: " ++ currentStatus⟩
  | some allowedTransitions =>
    if allowedTransitions.contains newStatus then ⟨true, ""⟩
    else ⟨false, "Cannot transition from " ++ currentStatus ++ " to " ++ newStatus
            ++ ". Allowed: " ++ joinAllowed allowedTransitions⟩

/-- One row of the `order_status_history` table. -/
structure HistoryEntry where
  order_id : Nat
  previous_status : String
  new_status : String
  changed_by : String
  reason : String
deriving Repr, DecidableEq

/-- Store snapshot used by the transition manager: the `orders` table
(id ↦ status, the only column the module touches) and the append-only
`order_status_history` table. -/
structure DBState where
  orders : List (Nat × String)
  history : List HistoryEntry
deriving Repr, DecidableEq

/-- `getCurrentOrderStatus`: `SELECT status FROM orders WHERE id = ?`;
`none` when the order row is absent. -/
def lookupStatus (db : DBState) (orderId : Nat) : Option String :=
  (db.orders.find? (fun p => p.1 == orderId)).map Prod.snd

/-- `UPDATE orders SET status = ? WHERE id = ?`. -/
def updateStatus (db : DBState) (orderId : Nat) (newStatus : String) : DBState :=
  { db with orders := db.orders.map (fun p => if p.1 == orderId then (p.1, newStatus) else p) }

/-- The `options` argument of `transitionOrderStatus` with its JS defaults. -/
structure TransitionOptions where
  changedBy : String := "system"
  reason : String := ""
  force : Bool := false
deriving Repr, DecidableEq

/-- Fault injection for the three `pool.query` call sites reached by
`transitionOrderStatus`: `some m` means that call throws an error with
message `m`; `none` means it succeeds. -/
structure StoreFaults where
  loadError : Option String := none
  writeError : Option String := none
  historyError : Option String := none
deriving Repr, DecidableEq

/-- Result record of `transitionOrderStatus`.  `idempotent` is `none` on the
branches whose JS object literal has no `idempotent` key. -/
structure TransitionResult where
  success : Bool
  message : String
  previousStatus : Option String
  newStatus : Option String
  idempotent : Option Bool
deriving Repr, DecidableEq

/-- `transitionOrderStatus(orderId, newStatus, options)`: returns the JS
result object together with the store snapshot after the call.  A thrown
load or write error is caught by the outer `catch` and turned into an
`Error: …` failure; a thrown history-insert error is caught inside
`logStatusChange` (only logged), so the already-written status update
stands. -/
def transitionOrderStatus (db : DBState) (faults : StoreFaults) (orderId : Nat)
    (newStatus : String) (opts : TransitionOptions) : TransitionResult × DBState :=
  match faults.loadError with
  | some m => (⟨false, "Error: " ++ m, none, none, none⟩, db)
  | none =>
    match lookupStatus db orderId with
    | none => (⟨false, "Order " ++ toString orderId ++ " not found", none, none, none⟩, db)
    | some currentStatus =>
      if currentStatus = newStatus then
        (⟨true, "Order " ++ toString orderId ++ " already in status " ++ newStatus,
          some currentStatus, some currentStatus, some true⟩, db)
      else if opts.force = false ∧ (validateTransition currentStatus newStatus).valid = false then
        (⟨false, (validateTransition currentStatus newStatus).reason,
          some currentStatus, none, none⟩, db)
      else
        match faults.writeError with
        | some m => (⟨false, "Error: " ++ m, none, none, none⟩, db)
        | none =>
          let db1 := updateStatus db orderId newStatus
          let db2 :=
            if faults.historyError.isSome then db1
            else { db1 with history := db1.history ++
                    [⟨orderId, currentStatus, newStatus, opts.changedBy, opts.reason⟩] }
          (⟨true, "Order " ++ toString orderId ++ " transitioned from " ++ currentStatus
              ++ " to " ++ newStatus, some currentStatus, some newStatus, some false⟩, db2)

/-! ## Post-Payment Validator (`postPaymentValidation`) -/

/-- One row of the `payments` table (the columns the validators use).
`amount` holds the value of `parseFloat(row.amount)` (`none` = `NaN`);
`transaction_id` is `none` for SQL `NULL`. -/
structure PaymentRow where
  id : Nat
  order_id : Nat
  amount : JNum
  status : String
  transaction_id : Option String
deriving Repr, DecidableEq

/-- One row of the `orders` table (the columns the validators use).
`total_amount` holds the value of `parseFloat(row.total_amount)`. -/
structure OrderRow where
  id : Nat
  total_amount : JNum
  status : String
deriving Repr, DecidableEq

/-- Store snapshot used by the post-payment validator. -/
structure PayDB where
  payments : List PaymentRow
  orders : List OrderRow
deriving Repr, DecidableEq

/-- `getPaymentById`: `SELECT * FROM payments WHERE id = ?`. -/
def getPaymentById (db : PayDB) (paymentId : Nat) : Option PaymentRow :=
  db.payments.find? (fun p => p.id == paymentId)

/-- `getOrderById`: `SELECT * FROM orders WHERE id = ?`. -/
def getOrderById (db : PayDB) (orderId : Nat) : Option OrderRow :=
  db.orders.find? (fun o => o.id == orderId)

/-- `getPaymentsByOrderId`: `SELECT * FROM payments WHERE order_id = ?`. -/
def getPaymentsByOrderId (db : PayDB) (orderId : Nat) : List PaymentRow :=
  db.payments.filter (fun p => p.order_id == orderId)

/-- The `data` payload of a single validator: every key any of the five
validators can set, `none` when the key is absent from the JS object. -/
structure VData where
  paymentAmount : Option JNum := none
  orderAmount : Option JNum := none
  difference : Option JNum := none
  paymentStatus : Option String := none
  orderStatus : Option String := none
  transactionId : Option String := none
  totalPaid : Option JNum := none
  completedPayments : Option Nat := none
  totalPayments : Option Nat := none
deriving Repr, DecidableEq

/-- Key overwrite for `Object.assign`: the new value wins when present. -/
def keyAssign {α : Type} (old new : Option α) : Option α :=
  match new with
  | some v => some v
  | none => old

/-- `Object.assign(a, b)`: keys present in `b` overwrite those of `a`. -/
def VData.assign (a b : VData) : VData where
  paymentAmount := keyAssign a.paymentAmount b.paymentAmount
  orderAmount := keyAssign a.orderAmount b.orderAmount
  difference := keyAssign a.difference b.difference
  paymentStatus := keyAssign a.paymentStatus b.paymentStatus
  orderStatus := keyAssign a.orderStatus b.orderStatus
  transactionId := keyAssign a.transactionId b.transactionId
  totalPaid := keyAssign a.totalPaid b.totalPaid
  completedPayments := keyAssign a.completedPayments b.completedPayments
  totalPayments := keyAssign a.totalPayments b.totalPayments

/-- Result record of the single-aspect validators. -/
structure VResult where
  valid : Bool
  errors : List String
  warnings : List String
  data : VData
deriving Repr, DecidableEq

/-- `validatePaymentAmount(payment, order)` from the source: missing
inputs, unparseable amounts, tolerance-gated mismatch error, and the two
strict-inequality warnings. -/
def validatePaymentAmount (payment : Option PaymentRow) (order : Option OrderRow) : VResult :=
  match payment, order with
  | some payment, some order =>
    match payment.amount, order.total_amount with
    | some paymentAmount, some orderAmount =>
      let tolerance : ℚ := 1/100
      let difference : ℚ := |paymentAmount - orderAmount|
      let errors : List String :=
        if difference > tolerance then
          ["Payment amount (" ++ jshow (some paymentAmount)
            ++ ") does not match order total (" ++ jshow (some orderAmount) ++ ")"]
        else []
      let warnings : List String :=
        if paymentAmount < orderAmount then ["Payment amount is less than order total"]
        else if paymentAmount > orderAmount then ["Payment amount is greater than order total"]
        else []
      ⟨errors.length == 0, errors, warnings,
        { paymentAmount := some (some paymentAmount), orderAmount := some (some orderAmount),
          difference := some (some difference) }⟩
    | _, _ => ⟨false, ["Invalid amount format"], [], {}⟩
  | _, _ => ⟨false, ["Payment or order data missing"], [], {}⟩

/-- `validatePaymentStatus(payment)` from the source. -/
def validatePaymentStatus (payment : Option PaymentRow) : VResult :=
  match payment with
  | none => ⟨false, ["Payment data missing"], [], {}⟩
  | some payment =>
    let validPostPaymentStatuses := ["completed", "processing"]
    let invalidStatuses := ["pending", "failed"]
    let errors : List String :=
      if invalidStatuses.contains payment.status then
        ["Payment status \x27" ++ payment.status ++ "\x27 is invalid for post-payment validation"]
      else []
    let warnings : List String :=
      if invalidStatuses.contains payment.status then []
      else if validPostPaymentStatuses.contains payment.status then []
      else ["Unexpected payment status: " ++ payment.status]
    ⟨errors.length == 0, errors, warnings, { paymentStatus := some payment.status }⟩

/-- `validateOrderStatus(order)` from the source. -/
def validateOrderStatus (order : Option OrderRow) : VResult :=
  match order with
  | none => ⟨false, ["Order data missing"], [], {}⟩
  | some order =>
    let validPostPaymentStatuses := ["payment_completed", "processing", "shipped", "delivered"]
    let invalidStatuses := ["pending", "payment_pending"]
    let errors : List String :=
      if invalidStatuses.contains order.status then
        ["Order status \x27" ++ order.status ++ "\x27 is inconsistent with completed payment"]
      else []
    let warnings : List String :=
      if invalidStatuses.contains order.status then []
      else if validPostPaymentStatuses.contains order.status then []
      else ["Order status \x27" ++ order.status ++ "\x27 may need review after payment"]
    ⟨errors.length == 0, errors, warnings, { orderStatus := some order.status }⟩

/-- `validateTransactionId(payment)` from the source: missing/blank id,
then the duplicate-count query over the snapshot (the infrastructure-error
catch around that query is not modelled: the snapshot query always
succeeds here). -/
def validateTransactionId (db : PayDB) (payment : Option PaymentRow) : VResult :=
  match payment with
  | none => ⟨false, ["Payment data missing"], [], {}⟩
  | some payment =>
    match payment.transaction_id with
    | none => ⟨false, ["Transaction ID is missing"], [], {}⟩
    | some tid =>
      if tid.trim = "" then ⟨false, ["Transaction ID is missing"], [], {}⟩
      else
        let dupCount :=
          (db.payments.filter (fun p => p.transaction_id == some tid && p.id != payment.id)).length
        let errors : List String :=
          if dupCount > 0 then ["Duplicate transaction ID found: " ++ tid] else []
        ⟨errors.length == 0, errors, [], { transactionId := some tid }⟩

/-- `validateTotalPayments(payments, order)` from the source: absent order,
absent/empty payment list, sum of `parseFloat` over exactly the payments
with status `"completed"` (JS `reduce` from `0`, `NaN` absorbing), then the
else-if pair shortfall-error / overpayment-warning. -/
def validateTotalPayments (payments : Option (List PaymentRow)) (order : Option OrderRow) :
    VResult :=
  match order with
  | none => ⟨false, ["Order data missing"], [], {}⟩
  | some order =>
    match payments with
    | none => ⟨false, ["No payments found for order"], [], {}⟩
    | some payments =>
      if payments.length == 0 then ⟨false, ["No payments found for order"], [], {}⟩
      else
        let completedPayments := payments.filter (fun p => p.status == "completed")
        let totalPaid : JNum := completedPayments.foldl (fun sum p => jadd sum p.amount) (some 0)
        let orderAmount : JNum := order.total_amount
        let tolerance : JNum := some (1/100)
        let errors : List String :=
          if jlt totalPaid (jsub orderAmount tolerance) then
            ["Total payments (" ++ jshow totalPaid ++ ") less than order amount ("
              ++ jshow orderAmount ++ ")"]
          else []
        let warnings : List String :=
          if jlt totalPaid (jsub orderAmount tolerance) then []
          else if jgt totalPaid (jadd orderAmount tolerance) then
            ["Total payments (" ++ jshow totalPaid ++ ") exceeds order amount ("
              ++ jshow orderAmount ++ ")"]
          else []
        ⟨errors.length == 0, errors, warnings,
          { totalPaid := some totalPaid, orderAmount := some orderAmount,
            completedPayments := some completedPayments.length,
            totalPayments := some payments.length }⟩

/-- The `data.payment` summary built by `validatePostPaymentState`. -/
structure PaymentSummary where
  id : Nat
  orderId : Nat
  amount : JNum
  status : String
deriving Repr, DecidableEq

/-- The `data.order` summary built by `validatePostPaymentState`. -/
structure OrderSummary where
  id : Nat
  totalAmount : JNum
  status : String
deriving Repr, DecidableEq

/-- The composite `data` bag of `validatePostPaymentState`: the fixed keys
(`paymentId`, `timestamp`) plus the optional summaries and the keys merged
in from the sub-validators via `Object.assign`. -/
structure PPData where
  paymentId : Nat
  timestamp : String
  payment : Option PaymentSummary := none
  order : Option OrderSummary := none
  merged : VData := {}
deriving Repr, DecidableEq

/-- Result record of `validatePostPaymentState`. -/
structure PPResult where
  valid : Bool
  errors : List String
  warnings : List String
  data : PPData
deriving Repr, DecidableEq

/-- `validatePostPaymentState(paymentId)` from the source.  The wall-clock
reading `new Date().toISOString()` taken at the start of the call is the
explicit argument `now`.  All five `pool.query` call sites on this path are
`SELECT`s over the snapshot `db`; the result is returned together with the
store snapshot after the call (the path performs no `UPDATE`/`INSERT`, so
the snapshot is returned unchanged). -/
def validatePostPaymentState (db : PayDB) (now : String) (paymentId : Nat) :
    PPResult × PayDB :=
  let data0 : PPData := { paymentId := paymentId, timestamp := now }
  match getPaymentById db paymentId with
  | none =>
    (⟨false, ["Payment " ++ toString paymentId ++ " not found"], [], data0⟩, db)
  | some payment =>
    let data1 := { data0 with
      payment := some ⟨payment.id, payment.order_id, payment.amount, payment.status⟩ }
    match getOrderById db payment.order_id with
    | none =>
      (⟨false, ["Order " ++ toString payment.order_id ++ " not found for payment "
          ++ toString paymentId], [], data1⟩, db)
    | some order =>
      let data2 := { data1 with order := some ⟨order.id, order.total_amount, order.status⟩ }
      let paymentStatusValidation := validatePaymentStatus (some payment)
      let orderStatusValidation := validateOrderStatus (some order)
      let amountValidation := validatePaymentAmount (some payment) (some order)
      let transactionValidation := validateTransactionId db (some payment)
      let allPayments := getPaymentsByOrderId db payment.order_id
      let totalPaymentsValidation := validateTotalPayments (some allPayments) (some order)
      let errors := paymentStatusValidation.errors ++ orderStatusValidation.errors
        ++ amountValidation.errors ++ transactionValidation.errors
        ++ totalPaymentsValidation.errors
      let warnings := paymentStatusValidation.warnings ++ orderStatusValidation.warnings
        ++ amountValidation.warnings ++ transactionValidation.warnings
        ++ totalPaymentsValidation.warnings
      let merged := VData.assign (VData.assign (VData.assign {} amountValidation.data)
        transactionValidation.data) totalPaymentsValidation.data
      (⟨errors.length == 0, errors, warnings, { data2 with merged := merged }⟩, db)

/-! ## Theorems -/

/-- C1: `validateTransition(current, target)` returns `valid = true` exactly
when `current` is a recognized status and `target` is in its
allowed-successor set per the legal graph (pending → payment_pending /
cancelled; payment_pending → payment_completed / cancelled;
payment_completed → processing / refunded; processing → shipped /
cancelled; shipped → delivered / cancelled; delivered → refunded;
cancelled → ∅; refunded → ∅); an unrecognized `current` yields the reason
`Invalid current status: X`, and a disallowed `target` yields the reason
`Cannot transition from X to Y. Allowed: …` listing the allowed set, or
`none` when that set is empty. -/
theorem validateTransition_correct (c t : String) :
    ((validateTransition c t).valid = true ↔
      (c = "pending" ∧ (t = "payment_pending" ∨ t = "cancelled")) ∨
      (c = "payment_pending" ∧ (t = "payment_completed" ∨ t = "cancelled")) ∨
      (c = "payment_completed" ∧ (t = "processing" ∨ t = "refunded")) ∨
      (c = "processing" ∧ (t = "shipped" ∨ t = "cancelled")) ∨
      (c = "shipped" ∧ (t = "delivered" ∨ t = "cancelled")) ∨
      (c = "delivered" ∧ t = "refunded")) ∧
    (c ∉ ["pending", "payment_pending", "payment_completed", "processing",
          "shipped", "delivered", "cancelled", "refunded"] →
      (validateTransition c t).reason = "Invalid current status: " ++ c) ∧
    (∀ allowed, VALID_TRANSITIONS c = some allowed → allowed.contains t = false →
      (validateTransition c t).reason =
        "Cannot transition from " ++ c ++ " to " ++ t ++ ". Allowed: "
          ++ (if allowed = [] then "none" else String.intercalate ", " allowed)) := by
  refine ⟨?_, ?_, ?_⟩
  · unfold validateTransition VALID_TRANSITIONS
    split_ifs with h1 h2 h3 h4 h5 h6 h7 h8 <;>
      simp_all [List.contains, List.elem_cons, List.elem_nil, Bool.or_eq_true, beq_iff_eq] <;>
      split_ifs <;> simp_all
  · intro hc
    simp only [List.mem_cons, List.mem_singleton, not_or] at hc
    unfold validateTransition VALID_TRANSITIONS
    split_ifs <;> simp_all
  · intro allowed hall hcon
    unfold validateTransition VALID_TRANSITIONS joinAllowed
    unfold VALID_TRANSITIONS at hall
    split_ifs at hall <;>
      first
        | ((injection hall with hall2; subst_vars; simp at hcon ⊢; simp [hcon]) <;>
            congr 1 <;> (try decide))
        | ((injection hall with hall2; subst_vars; simp) <;> congr 1 <;> (try decide))

/-- Witness for C1 at concrete inputs: an illegal jump from `pending` to
`shipped` is rejected with the reason naming the allowed set, an illegal
move out of `cancelled` names an empty allowed set, and `pending →
payment_pending` is valid. -/
theorem validateTransition_correct_witness :
    (validateTransition "pending" "shipped").reason =
      "Cannot transition from pending to shipped. Allowed: payment_pending, cancelled" ∧
    (validateTransition "cancelled" "pending").reason =
      "Cannot transition from cancelled to pending. Allowed: none" ∧
    (validateTransition "bogus" "shipped").reason = "Invalid current status: bogus" ∧
    (validateTransition "pending" "payment_pending").valid = true := by
  refine ⟨?_, ?_, ?_, ?_⟩
  · have h := (validateTransition_correct "pending" "shipped").2.2
      ["payment_pending", "cancelled"] (by decide) (by decide)
    rw [h]; decide
  · have h := (validateTransition_correct "cancelled" "pending").2.2 [] (by decide) (by decide)
    rw [h]; decide
  · exact (validateTransition_correct "bogus" "shipped").2.1 (by decide)
  · exact ((validateTransition_correct "pending" "payment_pending").1).mpr
      (Or.inl ⟨rfl, Or.inl rfl⟩)

/-- C2 (amended): for every order whose current status is terminal
(`cancelled` or `refunded`), the allowed-successor set is empty, and every
proposed transition to a *different* target status with `force` *unset* is
rejected: `transitionOrderStatus` fails and the stored status never
changes, for every `changedBy`/`reason`.  (As literally stated the claim
is false: `force = true` bypasses validation and mutates the terminal
order, and requesting the terminal status itself returns the idempotent
success — see the counterexample.) -/
theorem terminal_status_rejects (db : DBState) (faults : StoreFaults)
    (orderId : Nat) (S target changedBy reason : String)
    (hS : S = "cancelled" ∨ S = "refunded")
    (horder : lookupStatus db orderId = some S)
    (hne : target ≠ S)
    (hload : faults.loadError = none) :
    VALID_TRANSITIONS S = some [] ∧
    (transitionOrderStatus db faults orderId target ⟨changedBy, reason, false⟩).1.success
      = false ∧
    (transitionOrderStatus db faults orderId target ⟨changedBy, reason, false⟩).2 = db := by
  rcases hS with h | h <;> subst h <;>
    refine ⟨by decide, ?_, ?_⟩ <;>
      simp [transitionOrderStatus, hload, horder, validateTransition, VALID_TRANSITIONS,
        Ne.symm hne]

/-- Witness for C2 (amended) at a concrete terminal order. -/
theorem terminal_status_rejects_witness :
    VALID_TRANSITIONS "refunded" = some [] ∧
    (transitionOrderStatus ⟨[(2, "refunded")], []⟩ ⟨none, none, none⟩ 2 "processing"
        ⟨"admin", "undo", false⟩).1.success = false ∧
    (transitionOrderStatus ⟨[(2, "refunded")], []⟩ ⟨none, none, none⟩ 2 "processing"
        ⟨"admin", "undo", false⟩).2 = ⟨[(2, "refunded")], []⟩ :=
  terminal_status_rejects ⟨[(2, "refunded")], []⟩ ⟨none, none, none⟩ 2 "refunded" "processing"
    "admin" "undo" (Or.inr rfl) (by decide) (by decide) rfl

/-- C2 counterexample: the claim quantifies over *every* target and *every*
option combination, but on an order stored as `cancelled`, a forced
transition to `shipped` succeeds and rewrites the stored status, and the
no-force request for `cancelled` itself succeeds via the idempotent
short-circuit — so "transitionOrderStatus fails and the stored status
never changes" does not hold as stated. -/
theorem terminal_claim_counterexample :
    (transitionOrderStatus ⟨[(1, "cancelled")], []⟩ ⟨none, none, none⟩ 1 "shipped"
        ⟨"system", "", true⟩).1.success = true ∧
    lookupStatus (transitionOrderStatus ⟨[(1, "cancelled")], []⟩ ⟨none, none, none⟩ 1 "shipped"
        ⟨"system", "", true⟩).2 1 = some "shipped" ∧
    (transitionOrderStatus ⟨[(1, "cancelled")], []⟩ ⟨none, none, none⟩ 1 "cancelled"
        ⟨"system", "", false⟩).1.success = true := by
  decide

/-- C3: when the stored status already equals the requested target `S`,
`transitionOrderStatus` returns success with `idempotent = true` and the
message `Order N already in status S`, leaves the store untouched (no
status write, no history entry), and repeating the call produces the
identical result on the identical store. -/
theorem transition_idempotent (db : DBState) (faults : StoreFaults) (orderId : Nat)
    (S : String) (opts : TransitionOptions)
    (horder : lookupStatus db orderId = some S)
    (hload : faults.loadError = none) :
    (transitionOrderStatus db faults orderId S opts).1 =
      ⟨true, "Order " ++ toString orderId ++ " already in status " ++ S,
        some S, some S, some true⟩ ∧
    (transitionOrderStatus db faults orderId S opts).2 = db ∧
    transitionOrderStatus (transitionOrderStatus db faults orderId S opts).2 faults orderId S opts
      = transitionOrderStatus db faults orderId S opts := by
  have key : transitionOrderStatus db faults orderId S opts =
      (⟨true, "Order " ++ toString orderId ++ " already in status " ++ S,
        some S, some S, some true⟩, db) := by
    simp [transitionOrderStatus, hload, horder]
  exact ⟨by rw [key], by rw [key], by rw [key]; exact key⟩

/-- Witness for C3 at a concrete order already in the target status. -/
theorem transition_idempotent_witness :
    (transitionOrderStatus ⟨[(7, "shipped")], []⟩ ⟨none, none, none⟩ 7 "shipped"
        ⟨"system", "", false⟩).1 =
      ⟨true, "Order 7 already in status shipped", some "shipped", some "shipped", some true⟩ ∧
    (transitionOrderStatus ⟨[(7, "shipped")], []⟩ ⟨none, none, none⟩ 7 "shipped"
        ⟨"system", "", false⟩).2 = ⟨[(7, "shipped")], []⟩ := by
  have h := transition_idempotent ⟨[(7, "shipped")], []⟩ ⟨none, none, none⟩ 7 "shipped"
    ⟨"system", "", false⟩ (by decide) rfl
  exact ⟨by rw [h.1]; decide, h.2.1⟩

/-- C4: `transitionOrderStatus` is non-mutating on failure and never
raises: (a) without `force`, a failed validation returns `success = false`
carrying the validation's reason, with the store untouched; (b) a thrown
status-load error is caught and returned as `success = false` with an
`Error: …` message and null previous/new status, store untouched; (c) the
same for a thrown status-write error. -/
theorem transition_error_handling (db : DBState) (faults : StoreFaults) (orderId : Nat)
    (cur target changedBy reason : String) (force : Bool) :
    (faults.loadError = none → lookupStatus db orderId = some cur → cur ≠ target →
      (validateTransition cur target).valid = false →
      transitionOrderStatus db faults orderId target ⟨changedBy, reason, false⟩ =
        (⟨false, (validateTransition cur target).reason, some cur, none, none⟩, db)) ∧
    (∀ m, faults.loadError = some m →
      transitionOrderStatus db faults orderId target ⟨changedBy, reason, force⟩ =
        (⟨false, "Error: " ++ m, none, none, none⟩, db)) ∧
    (∀ m, faults.loadError = none → faults.writeError = some m →
      lookupStatus db orderId = some cur → cur ≠ target →
      ((validateTransition cur target).valid = true ∨ force = true) →
      transitionOrderStatus db faults orderId target ⟨changedBy, reason, force⟩ =
        (⟨false, "Error: " ++ m, none, none, none⟩, db)) := by
  refine ⟨?_, ?_, ?_⟩
  · intro hload horder hne hval
    simp [transitionOrderStatus, hload, horder, hne, hval]
  · intro m hload
    simp [transitionOrderStatus, hload]
  · intro m hload hwrite horder hne hok
    rcases hok with hok | hok <;>
      simp [transitionOrderStatus, hload, hwrite, horder, hne, hok]

/-- Witness for C4: a rejected `pending → shipped` jump leaves the store
as it was and carries the validation reason; injected load and write
faults come back as structured `Error: …` failures. -/
theorem transition_error_handling_witness :
    transitionOrderStatus ⟨[(3, "pending")], []⟩ ⟨none, none, none⟩ 3 "shipped"
        ⟨"system", "", false⟩ =
      (⟨false, (validateTransition "pending" "shipped").reason, some "pending", none, none⟩,
        ⟨[(3, "pending")], []⟩) ∧
    transitionOrderStatus ⟨[(3, "pending")], []⟩ ⟨some "db down", none, none⟩ 3 "shipped"
        ⟨"system", "", false⟩ =
      (⟨false, "Error: db down", none, none, none⟩, ⟨[(3, "pending")], []⟩) ∧
    transitionOrderStatus ⟨[(3, "pending")], []⟩ ⟨none, some "db down", none⟩ 3 "payment_pending"
        ⟨"system", "", false⟩ =
      (⟨false, "Error: db down", none, none, none⟩, ⟨[(3, "pending")], []⟩) := by
  refine ⟨?_, ?_, ?_⟩
  · exact (transition_error_handling ⟨[(3, "pending")], []⟩ ⟨none, none, none⟩ 3 "pending"
      "shipped" "system" "" false).1 rfl (by decide) (by decide) (by decide)
  · exact (transition_error_handling ⟨[(3, "pending")], []⟩ ⟨some "db down", none, none⟩ 3
      "pending" "shipped" "system" "" false).2.1 "db down" rfl
  · exact (transition_error_handling ⟨[(3, "pending")], []⟩ ⟨none, some "db down", none⟩ 3
      "pending" "payment_pending" "system" "" false).2.2 "db down" rfl rfl (by decide)
      (by decide) (Or.inl (by decide))

/-- C8: when the status write succeeds but the history insert throws, the
failure is only logged: `transitionOrderStatus` still returns
`success = true` with the previous and new status, the written status
change stands (the orders table equals the updated table), and no history
entry is appended. -/
theorem history_failure_non_fatal (db : DBState) (orderId : Nat)
    (cur target changedBy reason m : String) (force : Bool)
    (horder : lookupStatus db orderId = some cur)
    (hne : cur ≠ target)
    (hok : (validateTransition cur target).valid = true ∨ force = true) :
    (transitionOrderStatus db ⟨none, none, some m⟩ orderId target
        ⟨changedBy, reason, force⟩).1 =
      ⟨true, "Order " ++ toString orderId ++ " transitioned from " ++ cur ++ " to " ++ target,
        some cur, some target, some false⟩ ∧
    (transitionOrderStatus db ⟨none, none, some m⟩ orderId target
        ⟨changedBy, reason, force⟩).2.orders = (updateStatus db orderId target).orders ∧
    (transitionOrderStatus db ⟨none, none, some m⟩ orderId target
        ⟨changedBy, reason, force⟩).2.history = db.history := by
  rcases hok with hok | hok <;>
    refine ⟨?_, ?_, ?_⟩ <;>
      simp [transitionOrderStatus, horder, hne, hok, updateStatus]

/-- Witness for C8: a valid `pending → payment_pending` transition with a
failing history insert still succeeds and keeps the written status. -/
theorem history_failure_non_fatal_witness :
    (transitionOrderStatus ⟨[(4, "pending")], []⟩ ⟨none, none, some "insert failed"⟩ 4
        "payment_pending" ⟨"webhook", "paid", false⟩).1 =
      ⟨true, "Order 4 transitioned from pending to payment_pending",
        some "pending", some "payment_pending", some false⟩ ∧
    (transitionOrderStatus ⟨[(4, "pending")], []⟩ ⟨none, none, some "insert failed"⟩ 4
        "payment_pending" ⟨"webhook", "paid", false⟩).2.orders =
      (updateStatus ⟨[(4, "pending")], []⟩ 4 "payment_pending").orders ∧
    (transitionOrderStatus ⟨[(4, "pending")], []⟩ ⟨none, none, some "insert failed"⟩ 4
        "payment_pending" ⟨"webhook", "paid", false⟩).2.history = [] := by
  have h := history_failure_non_fatal ⟨[(4, "pending")], []⟩ 4 "pending" "payment_pending"
    "webhook" "paid" "insert failed" false (by decide) (by decide) (Or.inl (by decide))
  exact ⟨by rw [h.1]; decide, h.2.1, h.2.2⟩

/-- C9: `validateOrderStatus` — an absent order is a missing-data failure;
`pending` and `payment_pending` are hard errors (inconsistent with a
completed payment); `payment_completed`, `processing`, `shipped`,
`delivered` pass with no errors and no warnings; every other status
(including `cancelled`) yields only a warning and `valid` stays `true`. -/
theorem validateOrderStatus_cases (ord : OrderRow) :
    (validateOrderStatus none = ⟨false, ["Order data missing"], [], {}⟩) ∧
    (ord.status ∈ ["pending", "payment_pending"] →
      validateOrderStatus (some ord) =
        ⟨false,
          ["Order status \x27" ++ ord.status ++ "\x27 is inconsistent with completed payment"],
          [], { orderStatus := some ord.status }⟩) ∧
    (ord.status ∈ ["payment_completed", "processing", "shipped", "delivered"] →
      validateOrderStatus (some ord) = ⟨true, [], [], { orderStatus := some ord.status }⟩) ∧
    (ord.status ∉ ["pending", "payment_pending"] →
      ord.status ∉ ["payment_completed", "processing", "shipped", "delivered"] →
      validateOrderStatus (some ord) =
        ⟨true, [],
          ["Order status \x27" ++ ord.status ++ "\x27 may need review after payment"],
          { orderStatus := some ord.status }⟩) := by
  refine ⟨rfl, ?_, ?_, ?_⟩
  · intro h
    simp only [List.mem_cons, List.not_mem_nil, or_false] at h
    rcases h with h | h <;> simp +decide [validateOrderStatus, h]
  · intro h
    simp only [List.mem_cons, List.not_mem_nil, or_false] at h
    rcases h with h | h | h | h <;> simp +decide [validateOrderStatus, h]
  · intro h1 h2
    simp only [List.mem_cons, List.mem_singleton, not_or] at h1 h2
    simp [validateOrderStatus, List.contains, List.elem_cons, List.elem_nil, beq_iff_eq,
      h1.1, h1.2, h2.1, h2.2.1, h2.2.2.1, h2.2.2.2]

/-- Witness for C9 at one status of each kind. -/
theorem validateOrderStatus_cases_witness :
    validateOrderStatus (some ⟨1, some 100, "pending"⟩) =
      ⟨false, ["Order status \x27pending\x27 is inconsistent with completed payment"], [],
        { orderStatus := some "pending" }⟩ ∧
    validateOrderStatus (some ⟨2, some 100, "processing"⟩) =
      ⟨true, [], [], { orderStatus := some "processing" }⟩ ∧
    validateOrderStatus (some ⟨3, some 100, "cancelled"⟩) =
      ⟨true, [], ["Order status \x27cancelled\x27 may need review after payment"],
        { orderStatus := some "cancelled" }⟩ := by
  refine ⟨?_, ?_, ?_⟩
  · exact (validateOrderStatus_cases ⟨1, some 100, "pending"⟩).2.1 (by decide)
  · exact (validateOrderStatus_cases ⟨2, some 100, "processing"⟩).2.2.1 (by decide)
  · exact (validateOrderStatus_cases ⟨3, some 100, "cancelled"⟩).2.2.2 (by decide) (by decide)

/-- C6: `validatePaymentAmount` — with both inputs present and both amounts
parsed, the mismatch error fires exactly when `|payment − order| > 0.01`,
the `less than` warning exactly when `payment < order`, the `greater than`
warning exactly when `payment > order` (strict inequalities, independent of
the tolerance), and equal amounts give a clean valid result; a missing
input gives the missing-data error and an unparseable amount the
`Invalid amount format` error. -/
theorem validatePaymentAmount_correct (pay : PaymentRow) (ord : OrderRow) (p o : ℚ) :
    (pay.amount = some p → ord.total_amount = some o →
      (("Payment amount (" ++ jshow (some p) ++ ") does not match order total ("
          ++ jshow (some o) ++ ")") ∈ (validatePaymentAmount (some pay) (some ord)).errors
        ↔ |p - o| > 1/100) ∧
      ("Payment amount is less than order total"
          ∈ (validatePaymentAmount (some pay) (some ord)).warnings ↔ p < o) ∧
      ("Payment amount is greater than order total"
          ∈ (validatePaymentAmount (some pay) (some ord)).warnings ↔ p > o) ∧
      ((validatePaymentAmount (some pay) (some ord)).valid = true ↔ |p - o| ≤ 1/100) ∧
      (p = o → validatePaymentAmount (some pay) (some ord) =
        ⟨true, [], [],
          { paymentAmount := some (some p), orderAmount := some (some o),
            difference := some (some 0) }⟩)) ∧
    (validatePaymentAmount none (some ord) = ⟨false, ["Payment or order data missing"], [], {}⟩) ∧
    (validatePaymentAmount (some pay) none = ⟨false, ["Payment or order data missing"], [], {}⟩) ∧
    (pay.amount = none →
      validatePaymentAmount (some pay) (some ord) = ⟨false, ["Invalid amount format"], [], {}⟩) ∧
    (ord.total_amount = none →
      validatePaymentAmount (some pay) (some ord) = ⟨false, ["Invalid amount format"], [], {}⟩) := by
  refine ⟨?_, rfl, rfl, ?_, ?_⟩
  · intro hp ho
    refine ⟨?_, ?_, ?_, ?_, ?_⟩
    · simp only [validatePaymentAmount, hp, ho]
      split_ifs with h <;> simp [h] <;> linarith
    · simp only [validatePaymentAmount, hp, ho]
      split_ifs with h1 h2 <;> simp_all
    · simp only [validatePaymentAmount, hp, ho]
      split_ifs with h1 h2 <;> simp_all <;> linarith
    · simp only [validatePaymentAmount, hp, ho]
      split_ifs with h1 <;> simp [h1] <;> linarith
    · intro he
      subst he
      simp [validatePaymentAmount, hp, ho]
  · intro hp
    simp [validatePaymentAmount, hp]
  · intro ho
    cases hpa : pay.amount <;> simp [validatePaymentAmount, hpa, ho]

/-- Witness for C6: 150 against 100 raises the mismatch error; 100 against
100 is clean. -/
theorem validatePaymentAmount_correct_witness :
    ("Payment amount (" ++ jshow (some (150 : ℚ)) ++ ") does not match order total ("
        ++ jshow (some (100 : ℚ)) ++ ")") ∈
      (validatePaymentAmount (some ⟨1, 1, some 150, "completed", some "t"⟩)
        (some ⟨1, some 100, "processing"⟩)).errors ∧
    validatePaymentAmount (some ⟨2, 2, some 100, "completed", some "t"⟩)
        (some ⟨2, some 100, "processing"⟩) =
      ⟨true, [], [],
        { paymentAmount := some (some 100), orderAmount := some (some 100),
          difference := some (some 0) }⟩ := by
  refine ⟨?_, ?_⟩
  · exact (((validatePaymentAmount_correct ⟨1, 1, some 150, "completed", some "t"⟩
      ⟨1, some 100, "processing"⟩ 150 100).1 rfl rfl).1).mpr (by norm_num)
  · exact ((validatePaymentAmount_correct ⟨2, 2, some 100, "completed", some "t"⟩
      ⟨2, some 100, "processing"⟩ 100 100).1 rfl rfl).2.2.2.2 rfl

/-! Helper lemmas about the JS `reduce` used by `validateTotalPayments`:
`NaN` is absorbing on either side of the running sum. -/

theorem jadd_none_left (x : JNum) : jadd none x = none := by cases x <;> rfl

theorem jadd_none_right (x : JNum) : jadd x none = none := by cases x <;> rfl

theorem jlt_none_left (x : JNum) : jlt none x = false := by cases x <;> rfl

theorem jgt_none_left (x : JNum) : jgt none x = false := by cases x <;> rfl

/-- Once the running sum of the JS `reduce` is `NaN`, it stays `NaN`. -/
theorem foldl_jadd_none_absorb (l : List PaymentRow) :
    l.foldl (fun sum q => jadd sum q.amount) none = none := by
  induction l with
  | nil => rfl
  | cons a l ih => simpa [jadd_none_left] using ih

/-- If any list element has a `NaN` amount, the JS `reduce` sum is `NaN`. -/
theorem foldl_jadd_isNone (l : List PaymentRow) (p : PaymentRow) (hp : p ∈ l)
    (ha : p.amount = none) (init : JNum) :
    l.foldl (fun sum q => jadd sum q.amount) init = none := by
  induction l generalizing init with
  | nil => cases hp
  | cons a l ih =>
    rcases List.mem_cons.mp hp with h | h
    · subst h
      simp [List.foldl_cons, ha, jadd_none_right, foldl_jadd_none_absorb]
    · exact ih h _

/-- C7: `validateTotalPayments` sums exactly the payments whose status is
`"completed"`; when that sum is the number `T` and the order total is `o`,
the shortfall error fires exactly when `T < o − 0.01`, the overpayment
warning exactly when `T > o + 0.01`, and the data reports `totalPaid`,
`orderAmount` and the completed/total payment counts; an absent order and
an absent or empty payment list fail with their respective errors. -/
theorem validateTotalPayments_correct (payments : List PaymentRow) (ord : OrderRow)
    (T o : ℚ)
    (hT : (payments.filter (fun q => q.status == "completed")).foldl
        (fun sum q => jadd sum q.amount) (some 0) = some T)
    (ho : ord.total_amount = some o)
    (hne : payments ≠ []) :
    (("Total payments (" ++ jshow (some T) ++ ") less than order amount ("
        ++ jshow (some o) ++ ")") ∈ (validateTotalPayments (some payments) (some ord)).errors
      ↔ T < o - 1/100) ∧
    (("Total payments (" ++ jshow (some T) ++ ") exceeds order amount ("
        ++ jshow (some o) ++ ")") ∈ (validateTotalPayments (some payments) (some ord)).warnings
      ↔ T > o + 1/100) ∧
    ((validateTotalPayments (some payments) (some ord)).valid = true ↔ ¬(T < o - 1/100)) ∧
    (validateTotalPayments (some payments) (some ord)).data =
      { totalPaid := some (some T), orderAmount := some (some o),
        completedPayments := some (payments.filter (fun q => q.status == "completed")).length,
        totalPayments := some payments.length } ∧
    (validateTotalPayments none (some ord) = ⟨false, ["No payments found for order"], [], {}⟩) ∧
    (validateTotalPayments (some payments) none = ⟨false, ["Order data missing"], [], {}⟩) ∧
    (validateTotalPayments (some ([] : List PaymentRow)) (some ord) =
      ⟨false, ["No payments found for order"], [], {}⟩) := by
  have hlen : (payments.length == 0) = false := by
    simp [List.length_eq_zero, hne]
  refine ⟨?_, ?_, ?_, ?_, rfl, rfl, rfl⟩
  · simp only [validateTotalPayments, hlen, Bool.false_eq_true, if_false]
    rw [hT, ho]
    simp only [jsub, jlt]
    split_ifs with h <;> simp_all [decide_eq_true_eq]
  · simp only [validateTotalPayments, hlen, Bool.false_eq_true, if_false]
    rw [hT, ho]
    simp only [jsub, jadd, jlt, jgt]
    split_ifs with h1 h2 <;> simp_all [decide_eq_true_eq] <;> (try linarith)
  · simp only [validateTotalPayments, hlen, Bool.false_eq_true, if_false]
    rw [hT, ho]
    simp only [jsub, jlt]
    split_ifs with h <;> simp_all [decide_eq_true_eq]
  · simp only [validateTotalPayments, hlen, Bool.false_eq_true, if_false]
    rw [hT, ho]

/-- Witness for C7: two completed payments of 50 each against an order
total of 100 are valid with `totalPaid = 100` and both counts 2. -/
theorem validateTotalPayments_correct_witness :
    (validateTotalPayments (some [⟨1, 1, some 50, "completed", some "a"⟩,
        ⟨2, 1, some 50, "completed", some "b"⟩])
      (some ⟨1, some 100, "processing"⟩)).valid = true ∧
    (validateTotalPayments (some [⟨1, 1, some 50, "completed", some "a"⟩,
        ⟨2, 1, some 50, "completed", some "b"⟩])
      (some ⟨1, some 100, "processing"⟩)).data =
      { totalPaid := some (some 100), orderAmount := some (some 100),
        completedPayments := some 2, totalPayments := some 2 } := by
  have h := validateTotalPayments_correct
    [⟨1, 1, some 50, "completed", some "a"⟩, ⟨2, 1, some 50, "completed", some "b"⟩]
    ⟨1, some 100, "processing"⟩ 100 100 (by norm_num [List.filter, List.foldl, jadd])
    rfl (by decide)
  refine ⟨h.2.2.1.mpr (by norm_num), ?_⟩
  rw [h.2.2.2.1]
  simp [List.filter]

/-- C10 (implicit): `validateTotalPayments` performs no number-format check
— when some completed payment's amount is `NaN` (unparseable), the sum is
`NaN`, both the shortfall and the overpayment comparison are false, and
the function returns `valid = true` with no errors, no warnings, and
`data.totalPaid` not a number, unlike the `Invalid amount format` error of
`validatePaymentAmount`. -/
theorem validateTotalPayments_nan_skips_checks (payments : List PaymentRow) (ord : OrderRow)
    (p : PaymentRow)
    (hmem : p ∈ payments) (hstatus : p.status = "completed") (hnan : p.amount = none) :
    validateTotalPayments (some payments) (some ord) =
      ⟨true, [], [],
        { totalPaid := some none, orderAmount := some ord.total_amount,
          completedPayments := some (payments.filter (fun q => q.status == "completed")).length,
          totalPayments := some payments.length }⟩ := by
  have hne : payments ≠ [] := List.ne_nil_of_mem hmem
  have hlen : (payments.length == 0) = false := by
    simp [List.length_eq_zero, hne]
  have hmemf : p ∈ payments.filter (fun q => q.status == "completed") := by
    simp [List.mem_filter, hmem, hstatus]
  have hfold := foldl_jadd_isNone (payments.filter (fun q => q.status == "completed")) p hmemf
    hnan (some 0)
  simp only [validateTotalPayments, hlen, hfold, jlt_none_left, jgt_none_left,
    Bool.false_eq_true, if_false]
  rfl

/-- Witness for C10: one completed payment with an unparseable amount next
to a completed payment of 50 against an order total of 100 yields a clean
valid result with `totalPaid = NaN`. -/
theorem validateTotalPayments_nan_witness :
    validateTotalPayments (some [⟨1, 1, none, "completed", some "a"⟩,
        ⟨2, 1, some 50, "completed", some "b"⟩])
      (some ⟨1, some 100, "processing"⟩) =
      ⟨true, [], [],
        { totalPaid := some none, orderAmount := some (some 100),
          completedPayments := some 2, totalPayments := some 2 }⟩ := by
  have h := validateTotalPayments_nan_skips_checks
    [⟨1, 1, none, "completed", some "a"⟩, ⟨2, 1, some 50, "completed", some "b"⟩]
    ⟨1, some 100, "processing"⟩ ⟨1, 1, none, "completed", some "a"⟩ (by decide) rfl rfl
  rw [h]
  simp [List.filter]

/-- C5 (amended): `validatePostPaymentState` mutates nothing (the store
snapshot after the call is the input snapshot) and, on unchanged store
data, repeated invocations return identical `valid`, `errors`, `warnings`
and identical `data` in every field except `timestamp`, which records the
wall-clock reading of that invocation; two invocations with the same
clock reading agree exactly.  (As literally stated the claim is false:
`data.timestamp` is `new Date().toISOString()` taken inside the call, so
invocations at different instants differ in `data` — see the
counterexample.) -/
theorem validatePostPaymentState_deterministic (db : PayDB) (t1 t2 : String) (pid : Nat) :
    (validatePostPaymentState db t1 pid).2 = db ∧
    (validatePostPaymentState db t1 pid).1.valid = (validatePostPaymentState db t2 pid).1.valid ∧
    (validatePostPaymentState db t1 pid).1.errors
      = (validatePostPaymentState db t2 pid).1.errors ∧
    (validatePostPaymentState db t1 pid).1.warnings
      = (validatePostPaymentState db t2 pid).1.warnings ∧
    (validatePostPaymentState db t1 pid).1.data.paymentId
      = (validatePostPaymentState db t2 pid).1.data.paymentId ∧
    (validatePostPaymentState db t1 pid).1.data.payment
      = (validatePostPaymentState db t2 pid).1.data.payment ∧
    (validatePostPaymentState db t1 pid).1.data.order
      = (validatePostPaymentState db t2 pid).1.data.order ∧
    (validatePostPaymentState db t1 pid).1.data.merged
      = (validatePostPaymentState db t2 pid).1.data.merged ∧
    (validatePostPaymentState db t1 pid).1.data.timestamp = t1 ∧
    (t1 = t2 → validatePostPaymentState db t1 pid = validatePostPaymentState db t2 pid) := by
  cases h1 : getPaymentById db pid with
  | none => simp [validatePostPaymentState, h1]
  | some payment =>
    cases h2 : getOrderById db payment.order_id with
    | none => simp [validatePostPaymentState, h1, h2]
    | some ord => simp [validatePostPaymentState, h1, h2]

/-- Witness for C5 (amended) on a concrete consistent store. -/
theorem validatePostPaymentState_deterministic_witness :
    (validatePostPaymentState
        ⟨[⟨1, 1, some 100, "completed", some "tx1"⟩], [⟨1, some 100, "processing"⟩]⟩
        "2025-01-01T00:00:00.000Z" 1).2 =
      ⟨[⟨1, 1, some 100, "completed", some "tx1"⟩], [⟨1, some 100, "processing"⟩]⟩ ∧
    (validatePostPaymentState
        ⟨[⟨1, 1, some 100, "completed", some "tx1"⟩], [⟨1, some 100, "processing"⟩]⟩
        "2025-01-01T00:00:00.000Z" 1).1.errors =
      (validatePostPaymentState
        ⟨[⟨1, 1, some 100, "completed", some "tx1"⟩], [⟨1, some 100, "processing"⟩]⟩
        "2025-01-01T00:00:00.001Z" 1).1.errors := by
  have h := validatePostPaymentState_deterministic
    ⟨[⟨1, 1, some 100, "completed", some "tx1"⟩], [⟨1, some 100, "processing"⟩]⟩
    "2025-01-01T00:00:00.000Z" "2025-01-01T00:00:00.001Z" 1
  exact ⟨h.1, h.2.2.1⟩

/-- C5 counterexample: on the same unchanged store, two invocations of
`validatePostPaymentState` whose wall-clock readings differ by one
millisecond return different `data` (the `timestamp` fields differ), so
"identical valid, errors, warnings, and data each time" does not hold as
stated. -/
theorem validatePostPaymentState_data_counterexample :
    (validatePostPaymentState
        ⟨[⟨1, 1, some 100, "completed", some "tx1"⟩], [⟨1, some 100, "processing"⟩]⟩
        "2025-01-01T00:00:00.000Z" 1).1.data ≠
    (validatePostPaymentState
        ⟨[⟨1, 1, some 100, "completed", some "tx1"⟩], [⟨1, some 100, "processing"⟩]⟩
        "2025-01-01T00:00:00.001Z" 1).1.data := by
  decide

end OrderPipeline
